import Mathlib

/-!
# Verification of the OAuth 2.0 provider core

Shallow embedding of the token-issuance core of the `ocnode-api-initial-project`
repository: the `OauthClient` model methods (`validateScope`, `mergedScope`,
`newAccessToken`, the pre-save hook), the `TokenGrantAuthorizationCodeHelper`
grant flow with PKCE verification, and the `OauthController.token` endpoint
preamble.  TypeScript strings become `String`, optional / nullable fields
become `Option`, JavaScript truthiness of an optional string is the explicit
`truthy` predicate, persistence becomes explicit state passing over a `Store`
record, and thrown protocol errors become an explicit `Thrown` sum threaded
through `Except`.
-/

/-- JavaScript truthiness of an optional string: `undefined`, `null` and the
empty string are falsy, every other string is truthy.  TypeScript conditions
of the form `if (x)` on a `string | undefined` value are translated with
this predicate. -/
def truthy : Option String → Bool
  | some s => s ≠ ""
  | none => false

/-- `OauthClientType` from `OauthClient.ts`. -/
inductive OauthClientType where
  | confidential
  | public
deriving DecidableEq, Repr

/-- `OauthClientProfileType` from `OauthClient.ts`. -/
inductive OauthClientProfileType where
  | web
  | userAgentBased
  | native
deriving DecidableEq, Repr

/-- `OauthClientGrantType` from `OauthClient.ts`. -/
inductive OauthClientGrantType where
  | implicit
  | client_credentials
  | password
  | authorization_code
deriving DecidableEq, Repr

/-- The persisted `OauthClient` document (fields used by the token flows).
`_id` stands for the Mongo object id; `domaine`, `secretKey` and `revokedAt`
are nullable.  Timestamps are naturals. -/
structure OauthClientDoc where
  _id : Nat
  clientId : String
  name : String
  domaine : Option String
  secretKey : Option String
  internal : Bool
  grants : List OauthClientGrantType
  redirectURIs : List String
  clientType : OauthClientType
  clientProfile : OauthClientProfileType
  scope : String
  revokedAt : Option Nat
deriving DecidableEq, Repr

/-- JavaScript `String.split(" ")` over the character list: fragments are
cut at every single space and empty fragments are kept, so the empty string
yields one empty fragment.  (Structurally recursive so that concrete
instances evaluate.) -/
def splitSpaceChars : List Char → List (List Char)
  | [] => [[]]
  | ch :: rest =>
    if ch = ' ' then
      [] :: splitSpaceChars rest
    else
      match splitSpaceChars rest with
      | [] => [[ch]]
      | w :: ws => (ch :: w) :: ws

/-- JavaScript `String.split(" ")` of a scope string. -/
def splitScope (s : String) : List String :=
  (splitSpaceChars s.toList).map fun w => String.mk w

/-- `OauthClient` method `validateScope` (`OauthClient.ts`): when the client
scope is not the wildcard, a requested wildcard is refused and otherwise every
space-separated token of the request must appear among the client's
space-separated tokens (the `for` loop with early `return false`); when the
client scope is the wildcard the method returns `true`. -/
def validateScope (c : OauthClientDoc) (scope : String) : Bool :=
  if c.scope ≠ "*" then
    if scope = "*" then
      false
    else
      let clientScopes := splitScope c.scope
      let scopes := splitScope scope
      scopes.all fun item => clientScopes.contains item
  else
    true

/-- One `internal / external` line of the TTL tables of `OauthDefaults`. -/
structure OauthExpiresInEntry where
  internal : Nat
  external : Nat
deriving DecidableEq, Repr

/-- The `confidential / public` TTL table of `OauthDefaults`. -/
structure OauthExpiresInTable where
  confidential : OauthExpiresInEntry
  public : OauthExpiresInEntry
deriving DecidableEq, Repr

/-- The process configuration `IOauthDefaults` (fields the embedded flows
read). -/
structure IOauthDefaults where
  accessTokenExpiresIn : OauthExpiresInTable
  refreshTokenExpiresIn : OauthExpiresInTable
  tokenType : String
deriving DecidableEq, Repr

/-- `OauthClient` method `accessTokenExpiresIn` (`OauthClient.ts`): look the
access-token TTL up by client type and the `internal` flag. -/
def accessTokenExpiresIn (c : OauthClientDoc) (oauthParams : IOauthDefaults) : Nat :=
  match c.clientType with
  | .public =>
    if c.internal then oauthParams.accessTokenExpiresIn.public.internal
    else oauthParams.accessTokenExpiresIn.public.external
  | .confidential =>
    if c.internal then oauthParams.accessTokenExpiresIn.confidential.internal
    else oauthParams.accessTokenExpiresIn.confidential.external

/-- `OauthClient` method `refreshTokenExpiresIn` (`OauthClient.ts`). -/
def refreshTokenExpiresIn (c : OauthClientDoc) (oauthParams : IOauthDefaults) : Nat :=
  match c.clientType with
  | .public =>
    if c.internal then oauthParams.refreshTokenExpiresIn.public.internal
    else oauthParams.refreshTokenExpiresIn.public.external
  | .confidential =>
    if c.internal then oauthParams.refreshTokenExpiresIn.confidential.internal
    else oauthParams.refreshTokenExpiresIn.confidential.external

/-- Modelled from the spec: `UtilsHelper.getMatchedScope` is not under `src/`
(only its caller `mergedScope` is); the spec (section 4.3) specifies the
result as "the intersection of tokens" of the two space-separated scope
strings.  Tokens of the first scope that appear in the second are kept, in
order, and joined back with single spaces. -/
def getMatchedScope (a b : String) : String :=
  let bTokens := splitScope b
  String.intercalate " " ((splitScope a).filter fun t => bTokens.contains t)

/-- The branch of `mergedScope` taken when the request carries no (truthy)
scope (`OauthClient.ts`): wildcard client scope returns the subject scope,
wildcard subject scope returns the client scope, otherwise the intersection. -/
def mergedScopeNoRequest (c : OauthClientDoc) (subjectScope : String) : Option String :=
  if c.scope = "*" then some subjectScope
  else if subjectScope = "*" then some c.scope
  else some (getMatchedScope subjectScope c.scope)

/-- `OauthClient` method `mergedScope` (`OauthClient.ts`).  The JavaScript
guard `if (requestScope)` is truthiness: an absent or empty request scope
falls to the no-request branch.  A truthy request scope is validated with
`validateScope`; an invalid one yields `undefined` (here `none`). -/
def mergedScope (c : OauthClientDoc) (subjectScope : String)
    (requestScope : Option String) : Option String :=
  if truthy requestScope then
    let rs := requestScope.getD ""
    if validateScope c rs then
      if rs = "*" then some subjectScope
      else if subjectScope = "*" then some rs
      else some (getMatchedScope subjectScope rs)
    else
      none
  else
    mergedScopeNoRequest c subjectScope

/-- `OauthClient.ts` pre-save hook, grants derivation: the `switch` on the
(just derived) client type combined with the `internal` flag. -/
def derivedGrants (clientType : OauthClientType) (internal : Bool) :
    List OauthClientGrantType :=
  match clientType with
  | .public =>
    if internal then [.implicit, .authorization_code, .password]
    else [.implicit, .authorization_code]
  | .confidential =>
    if internal then [.implicit, .authorization_code, .password, .client_credentials]
    else [.implicit, .authorization_code]

/-- `OauthClient.ts` pre-save hook (`externalConfig`, `sc.pre("save", ...)`),
over an external URL validator (the `validator.isURL` library function).
A `web` profile forces the `confidential` type and keeps the secret key; any
other profile forces `public` and clears the secret key.  Grants are then
derived from the type and the `internal` flag; an invalid redirect URI aborts
the save; finally, an internal client with a falsy scope receives the
wildcard scope. -/
def preSaveHook (isURL : String → Bool) (c : OauthClientDoc) :
    Except String OauthClientDoc :=
  let c1 :=
    if c.clientProfile = .web then
      { c with clientType := .confidential }
    else
      { c with clientType := .public, secretKey := none }
  let c2 := { c1 with grants := derivedGrants c1.clientType c1.internal }
  if c2.redirectURIs.any (fun uri => ¬ isURL uri) then
    Except.error "The redirect URIs value must be valid URLs."
  else if c2.internal ∧ c2.scope = "" then
    Except.ok { c2 with scope := "*" }
  else
    Except.ok c2

/-- Modelled from the spec: the client registration path (the admin channel
that creates `OauthClient` documents and derives their secret) is not under
`src/`.  Spec section 3 specifies `secretKey` as "HMAC-derived" from the
client id (section 4.1: `secret = HMAC(algorithm, OAUTH_SECRET_KEY,
clientId)`, hex-encoded); the HMAC itself is the platform primitive, taken
here as the parameter `hmacHex`.  Registration stores the derived secret on
the draft and persists it through the pre-save hook. -/
def registerClient (isURL : String → Bool) (hmacHex : String → String)
    (draft : OauthClientDoc) : Except String OauthClientDoc :=
  preSaveHook isURL { draft with secretKey := some (hmacHex draft.clientId) }

/-- Modelled from the spec: `OauthHelper.jwtSign` is not under `src/`; spec
section 4.1 describes it as a compact JWS over the claim set.  No claim in
this development concerns the signature encoding, so a signed token is
represented by its claim set (the object literal passed to `jwtSign` in
`newAccessToken` is in `src/unnamed/part_000`). -/
structure JwtClaims where
  client_id : String
  scope : Option String
  azp : String
  aud : String
  sub : String
  jti : Nat
  exp : Nat
deriving DecidableEq, Repr

/-- A persisted `OauthAccessToken` document (fields written by
`newAccessToken`). -/
structure OauthAccessTokenDoc where
  _id : Nat
  userId : String
  client : Nat
  name : String
  scope : String
  expiresAt : Nat
  userAgent : Option String
deriving DecidableEq, Repr

/-- A persisted `OauthRefreshToken` document (fields written by
`newAccessToken`). -/
structure OauthRefreshTokenDoc where
  _id : Nat
  accessToken : Nat
  expiresAt : Nat
deriving DecidableEq, Repr

/-- A persisted `OauthAuthCode` document (fields read by
`TokenGrantAuthorizationCodeHelper.run`).  `codeChallengeMethod` is kept as a
raw optional string: the schema enumerates `plain` and `S256` but the helper
switches on the stored value with no default case. -/
structure OauthAuthCodeDoc where
  _id : Nat
  authorizationCode : String
  client : Nat
  userId : String
  scope : String
  redirectUri : String
  codeChallenge : Option String
  codeChallengeMethod : Option String
  expiresAt : Nat
  revokedAt : Option Nat
deriving DecidableEq, Repr

/-- The entity store: the persisted collections touched by the embedded
flows, plus the next fresh object id. -/
structure Store where
  authCodes : List OauthAuthCodeDoc
  accessTokens : List OauthAccessTokenDoc
  refreshTokens : List OauthRefreshTokenDoc
  nextId : Nat
deriving DecidableEq, Repr

/-- `OauthTokenType` from `OauthClient.ts`: the value `newAccessToken`
resolves with. -/
structure OauthTokenType where
  token : JwtClaims
  accessTokenExpireIn : Nat
  refreshToken : Option JwtClaims
deriving DecidableEq, Repr

/-- A thrown value: either a structured protocol error `{status, data}` (the
`data.error` OAuth code is kept; the human-readable description is elided) or
a bare `{message}` object with no `status` field. -/
inductive Thrown where
  | http (status : Nat) (error : String)
  | bare (message : String)
deriving DecidableEq, Repr

/-- A response body of the token endpoint: a token response or an OAuth error
code (descriptions elided). -/
inductive TokenBody where
  | token (access_token : JwtClaims) (token_type : String) (expires_in : Nat)
      (refresh_token : Option JwtClaims)
  | err (error : String)
deriving DecidableEq, Repr

/-- An HTTP response of the token endpoint. -/
structure HttpOut where
  status : Nat
  body : TokenBody
deriving DecidableEq, Repr

/-- The `catch` translation shared by `OauthController.token` and
`TokenGrantAuthorizationCodeHelper.run`: a thrown value with a `status` field
becomes that status with its data, anything else becomes a 400
`server_error`. -/
def catchThrown : Thrown → HttpOut
  | .http status error => ⟨status, .err error⟩
  | .bare _ => ⟨400, .err "server_error"⟩

-- Equality of Except results is decidable once both sides are.
deriving instance DecidableEq for Except

/-- `OauthClient` method `newAccessToken` (`OauthClient.ts`).  If the grant is
not among the client's grants, a bare `{message}` object is thrown (no
`status`).  Otherwise an `OauthAccessToken` is persisted with the TTL from the
configuration table and the access JWT is signed; a refresh token is then
created exactly when the grant is neither `client_credentials` nor `implicit`
and the client type is `confidential`, persisting an `OauthRefreshToken`
that references the new access token.  `now` is the current timestamp and
`userAgent` the request's `user-agent` header. -/
def newAccessToken (c : OauthClientDoc) (oauthParams : IOauthDefaults)
    (now : Nat) (userAgent : Option String) (grant : OauthClientGrantType)
    (scope : String) (subject : String) (st : Store) :
    Except Thrown (OauthTokenType × Store) :=
  if c.grants.contains grant then
    let ttl := accessTokenExpiresIn c oauthParams
    let accessDoc : OauthAccessTokenDoc :=
      { _id := st.nextId, userId := subject, client := c._id, name := c.name,
        scope := scope, expiresAt := now + ttl, userAgent := userAgent }
    let st1 : Store :=
      { st with accessTokens := st.accessTokens ++ [accessDoc],
                nextId := st.nextId + 1 }
    let r : OauthTokenType :=
      { token :=
          { client_id := c.clientId, scope := some scope,
            azp := c.domaine.getD c.clientId, aud := c.domaine.getD c.clientId,
            sub := subject, jti := accessDoc._id, exp := accessDoc.expiresAt },
        accessTokenExpireIn := ttl,
        refreshToken := none }
    if ¬ (grant = .client_credentials ∨ grant = .implicit) ∧
        c.clientType = .confidential then
      let refreshDoc : OauthRefreshTokenDoc :=
        { _id := st1.nextId, accessToken := accessDoc._id,
          expiresAt := now + refreshTokenExpiresIn c oauthParams }
      let st2 : Store :=
        { st1 with refreshTokens := st1.refreshTokens ++ [refreshDoc],
                   nextId := st1.nextId + 1 }
      let refreshClaims : JwtClaims :=
        { client_id := c.clientId, scope := none,
          azp := c.domaine.getD c.clientId,
          aud := c.domaine.getD c.clientId, sub := subject,
          jti := refreshDoc._id, exp := refreshDoc.expiresAt }
      Except.ok ({ r with refreshToken := some refreshClaims }, st2)
    else
      Except.ok (r, st1)
  else
    Except.error (.bare "authorization grant type is not allowed for this client.")

/-- Truncation to a 32-bit word. -/
def w32 (n : Nat) : Nat := n % 4294967296

/-- 32-bit right rotation (the operand is a 32-bit word). -/
def rotr32 (n x : Nat) : Nat := w32 ((x >>> n) ||| (x <<< (32 - n)))

/-- SHA-256 `Ch` (the complement is taken within 32 bits). -/
def ch32 (e f g : Nat) : Nat := (e &&& f) ^^^ ((e ^^^ 4294967295) &&& g)

/-- SHA-256 `Maj`. -/
def maj32 (a b c : Nat) : Nat := (a &&& b) ^^^ (a &&& c) ^^^ (b &&& c)

/-- SHA-256 big sigma 0. -/
def sigmaBig0 (x : Nat) : Nat := rotr32 2 x ^^^ rotr32 13 x ^^^ rotr32 22 x

/-- SHA-256 big sigma 1. -/
def sigmaBig1 (x : Nat) : Nat := rotr32 6 x ^^^ rotr32 11 x ^^^ rotr32 25 x

/-- SHA-256 small sigma 0. -/
def sigmaSmall0 (x : Nat) : Nat := rotr32 7 x ^^^ rotr32 18 x ^^^ (x >>> 3)

/-- SHA-256 small sigma 1. -/
def sigmaSmall1 (x : Nat) : Nat := rotr32 17 x ^^^ rotr32 19 x ^^^ (x >>> 10)

/-- The SHA-256 round constants (FIPS 180-4, written in decimal). -/
def sha256K : List Nat :=
  [1116352408, 1899447441, 3049323471, 3921009573, 961987163,
   1508970993, 2453635748, 2870763221, 3624381080, 310598401,
   607225278, 1426881987, 1925078388, 2162078206, 2614888103,
   3248222580, 3835390401, 4022224774, 264347078, 604807628,
   770255983, 1249150122, 1555081692, 1996064986, 2554220882,
   2821834349, 2952996808, 3210313671, 3336571891, 3584528711,
   113926993, 338241895, 666307205, 773529912, 1294757372,
   1396182291, 1695183700, 1986661051, 2177026350, 2456956037,
   2730485921, 2820302411, 3259730800, 3345764771, 3516065817,
   3600352804, 4094571909, 275423344, 430227734, 506948616,
   659060556, 883997877, 958139571, 1322822218, 1537002063,
   1747873779, 1955562222, 2024104815, 2227730452, 2361852424,
   2428436474, 2756734187, 3204031479, 3329325298]

/-- The SHA-256 initial hash value (FIPS 180-4, written in decimal). -/
def sha256InitH : List Nat :=
  [1779033703, 3144134277, 1013904242, 2773480762,
   1359893119, 2600822924, 528734635, 1541459225]

/-- SHA-256 message padding over a byte list: append `0x80`, zero bytes up to
56 modulo 64, and the 8-byte big-endian bit length. -/
def sha256Pad (msg : List Nat) : List Nat :=
  let bitLen := msg.length * 8
  let zeros := (64 + 55 - msg.length % 64) % 64
  msg ++ 0x80 :: (List.replicate zeros 0 ++
    (List.range 8).map fun i => (bitLen >>> ((7 - i) * 8)) % 256)

/-- Split a byte list into successive chunks of 64 bytes; the fuel bounds
the number of chunks and the length of the list always suffices. -/
def chunks64Go : Nat → List Nat → List (List Nat)
  | _, [] => []
  | 0, _ => []
  | fuel + 1, bs => bs.take 64 :: chunks64Go fuel (bs.drop 64)

/-- Split a byte list into successive chunks of 64 bytes. -/
def chunks64 (bs : List Nat) : List (List Nat) :=
  chunks64Go bs.length bs

/-- Big-endian 32-bit words of a byte list. -/
def bytesToWords32 : List Nat → List Nat
  | b0 :: b1 :: b2 :: b3 :: rest =>
    (((b0 * 256 + b1) * 256 + b2) * 256 + b3) :: bytesToWords32 rest
  | _ => []

/-- Extend the SHA-256 message schedule, keeping the words most recent
first: the next word is built from the words 2, 7, 15 and 16 positions
back. -/
def sha256ExtendRev (racc : List Nat) : Nat → List Nat
  | 0 => racc
  | k + 1 =>
    let g := fun (j : Nat) => racc.getD j 0
    sha256ExtendRev (w32 (sigmaSmall1 (g 1) + g 6 + sigmaSmall0 (g 14) + g 15) :: racc) k

/-- One SHA-256 compression round on the eight-word working state. -/
def sha256Round (st : List Nat) (k w : Nat) : List Nat :=
  match st with
  | [a, b, c, d, e, f, g, h] =>
    let t1 := w32 (h + sigmaBig1 e + ch32 e f g + k + w)
    let t2 := w32 (sigmaBig0 a + maj32 a b c)
    [w32 (t1 + t2), a, b, c, w32 (d + t1), e, f, g]
  | other => other

/-- Process one 64-byte block: build the 64-word schedule, run the 64
compression rounds and add the result to the incoming hash value. -/
def sha256Block (h : List Nat) (block : List Nat) : List Nat :=
  let ws := (sha256ExtendRev (bytesToWords32 block).reverse 48).reverse
  let st := (sha256K.zip ws).foldl (fun s kw => sha256Round s kw.1 kw.2) h
  (h.zip st).map fun p => w32 (p.1 + p.2)

/-- Big-endian bytes of a 32-bit word list. -/
def wordsToBytes32 (ws : List Nat) : List Nat :=
  (ws.map fun w => [(w >>> 24) % 256, (w >>> 16) % 256, (w >>> 8) % 256, w % 256]).flatten

/-- SHA-256 of a byte list. -/
def sha256 (msg : List Nat) : List Nat :=
  wordsToBytes32 ((chunks64 (sha256Pad msg)).foldl sha256Block sha256InitH)

/-- The base64 alphabet. -/
def base64Chars : List Char :=
  "ABCDEFGHIJKLMNOPQRSTUVWXYZabcdefghijklmnopqrstuvwxyz0123456789+/".toList

/-- Standard base64 encoding of a byte list, `=`-padded, as produced by
`digest("base64")`. -/
def base64Encode : List Nat → String
  | b0 :: b1 :: b2 :: rest =>
    let n := (b0 * 256 + b1) * 256 + b2
    String.mk [base64Chars.getD ((n >>> 18) % 64) 'A',
               base64Chars.getD ((n >>> 12) % 64) 'A',
               base64Chars.getD ((n >>> 6) % 64) 'A',
               base64Chars.getD (n % 64) 'A'] ++ base64Encode rest
  | [b0, b1] =>
    let n := (b0 * 256 + b1) * 256
    String.mk [base64Chars.getD ((n >>> 18) % 64) 'A',
               base64Chars.getD ((n >>> 12) % 64) 'A',
               base64Chars.getD ((n >>> 6) % 64) 'A'] ++ "="
  | [b0] =>
    let n := b0 * 65536
    String.mk [base64Chars.getD ((n >>> 18) % 64) 'A',
               base64Chars.getD ((n >>> 12) % 64) 'A'] ++ "=="
  | [] => ""

/-- The S256 transform of `TokenGrantAuthorizationCodeHelper.run`:
`crypto.createHash("sha256").update(toASCII(verifier)).digest("base64")`
with `=` stripped and `+`, `/` mapped to `-`, `_` (the three `replace`
calls).  `punycode.toASCII` is the identity on ASCII-only strings and PKCE
code verifiers are ASCII, so the hashed bytes are the verifier's code
points.  The three TypeScript `replace` calls each rewrite a single
character globally, so they are performed on the character list: every `=`
is dropped, `+` becomes `-` and `/` becomes `_`. -/
def s256CodeChallenge (verifier : String) : String :=
  String.mk (((base64Encode (sha256 (verifier.toList.map Char.toNat))).toList.filter
      fun ch => ch ≠ '=').map
    fun ch => if ch = '+' then '-' else if ch = '/' then '_' else ch)

/-- The `ITokenRequest` body of a token request (fields read by the embedded
flows); every field is optional in the interface. -/
structure ITokenRequest where
  client_id : Option String
  client_secret : Option String
  grant_type : Option String
  scope : Option String
  code : Option String
  redirect_uri : Option String
  code_verifier : Option String
deriving DecidableEq, Repr

/-- Modelled from the spec: `OauthHelper.getBasicAuthHeaderCredentials` is not
under `src/`; the spec (section 4.6) says client credentials are extracted
from the Basic header when present.  The parsed header carries a client id
and possibly a client secret. -/
structure BasicAuthCredentials where
  client_id : String
  client_secret : Option String
deriving DecidableEq, Repr

/-- The credential merge at the top of `OauthController.token`: when the
Basic header yields credentials, both `client_id` and `client_secret` of the
body are overwritten. -/
def mergeBasic (data : ITokenRequest) (basic : Option BasicAuthCredentials) :
    ITokenRequest :=
  match basic with
  | some b => { data with client_id := some b.client_id, client_secret := b.client_secret }
  | none => data

/-- Modelled from the spec: `OauthHelper.verifyClientSecret` is not under
`src/`; the spec (section 4.1) specifies verification as recomputing
`HMAC(algorithm, OAUTH_SECRET_KEY, clientId)` (hex) and comparing with the
presented hash.  The keyed HMAC primitive, an external library call, is the
parameter `hmacHex`. -/
def verifyClientSecret (hmacHex : String → String) (clientId hash : String) : Bool :=
  hash == hmacHex clientId

/-- The PKCE verification block of `TokenGrantAuthorizationCodeHelper.run`:
returns the thrown protocol error, or `none` when control passes on to token
issuance.  A truthy stored `codeChallenge` demands a truthy `code_verifier`
(`invalid_request` otherwise); the `switch` on the stored
`codeChallengeMethod` compares the raw verifier (`plain`) or its S256
transform (`S256`) with the challenge, failing with `invalid_grant` on
mismatch, and has no `default` case: any other stored method value performs
no comparison. -/
def pkceCheck (oauthCode : OauthAuthCodeDoc) (code_verifier : Option String) :
    Option Thrown :=
  if truthy oauthCode.codeChallenge then
    if ¬ truthy code_verifier then
      some (.http 400 "invalid_request")
    else
      if oauthCode.codeChallengeMethod = some "plain" then
        if code_verifier ≠ oauthCode.codeChallenge then
          some (.http 400 "invalid_grant")
        else
          none
      else if oauthCode.codeChallengeMethod = some "S256" then
        if some (s256CodeChallenge (code_verifier.getD "")) ≠ oauthCode.codeChallenge then
          some (.http 400 "invalid_grant")
        else
          none
      else
        none
  else
    none

/-- The issuance tail of `TokenGrantAuthorizationCodeHelper.run`: mint the
tokens through `newAccessToken` with `grant = authorization_code`,
`scope = oauthCode.scope` and `subject = oauthCode.userId`, answering 200
with the token body; a thrown value is translated by the helper's `catch`
(the grants failure is a bare message, hence a 400 `server_error`), leaving
the store untouched. -/
def authCodeIssue (client : OauthClientDoc) (oauthParams : IOauthDefaults)
    (now : Nat) (userAgent : Option String) (oauthCode : OauthAuthCodeDoc)
    (st : Store) : HttpOut × Store :=
  match newAccessToken client oauthParams now userAgent .authorization_code
      oauthCode.scope oauthCode.userId st with
  | .ok (tokens, st1) =>
    (⟨200, .token tokens.token oauthParams.tokenType tokens.accessTokenExpireIn
        tokens.refreshToken⟩, st1)
  | .error e => (catchThrown e, st)

/-- `TokenGrantAuthorizationCodeHelper.run`: load the `OauthAuthCode` by
`(client, code)` (missing, expired, revoked or a mismatched `redirect_uri`
answer 400 `invalid_grant`), run the PKCE block, then issue the tokens.  The
helper performs no write on the authorization-code collection — in
particular the redeemed code is never revoked — so `st.authCodes` passes
through unchanged. -/
def authCodeRun (data : ITokenRequest) (client : OauthClientDoc)
    (oauthParams : IOauthDefaults) (now : Nat) (userAgent : Option String)
    (st : Store) : HttpOut × Store :=
  match st.authCodes.find?
      (fun oc => oc.client == client._id && some oc.authorizationCode == data.code) with
  | none => (⟨400, .err "invalid_grant"⟩, st)
  | some oauthCode =>
    if oauthCode.expiresAt < now then
      (⟨400, .err "invalid_grant"⟩, st)
    else if oauthCode.revokedAt.isSome then
      (⟨400, .err "invalid_grant"⟩, st)
    else if data.redirect_uri ≠ some oauthCode.redirectUri then
      (⟨400, .err "invalid_grant"⟩, st)
    else
      match pkceCheck oauthCode data.code_verifier with
      | some e => (catchThrown e, st)
      | none => authCodeIssue client oauthParams now userAgent oauthCode st

/-- The four grant helpers `OauthController.token` dispatches to. -/
inductive GrantHandler where
  | authorizationCodeGrant
  | clientCredentialsGrant
  | passwordGrant
  | refreshTokenGrant
deriving DecidableEq, Repr

/-- The outcome of the `OauthController.token` preamble: a terminal HTTP
response, or the dispatch of the loaded client to one of the four grant
helpers. -/
inductive TokenStep where
  | respond (out : HttpOut)
  | dispatch (handler : GrantHandler) (client : OauthClientDoc)
deriving DecidableEq, Repr

/-- `OauthController.token` (`oauth.controller.ts`), after the Basic-header
merge and up to the grant dispatch, in order — falsy
`client_id` answers 400 `invalid_request`; an unknown client 401
`invalid_client`; a revoked client 401 `invalid_client`; a truthy body
`scope` failing `validateScope` 400 `invalid_scope`; a confidential client
with a falsy `client_secret` 400 `invalid_request`; a truthy
`client_secret` failing `verifyClientSecret` 401 `invalid_client`; finally
the `switch` on `grant_type` dispatches to one of the four helpers, any
other value answering 400 `unsupported_grant_type`. -/
def tokenPreamble (hmacHex : String → String)
    (clients : List OauthClientDoc) (data : ITokenRequest) : TokenStep :=
  if ¬ truthy data.client_id then
    .respond ⟨400, .err "invalid_request"⟩
  else
    match clients.find? (fun c => c.clientId == data.client_id.getD "") with
    | none => .respond ⟨401, .err "invalid_client"⟩
    | some client =>
      if client.revokedAt.isSome then
        .respond ⟨401, .err "invalid_client"⟩
      else if truthy data.scope ∧ ¬ validateScope client (data.scope.getD "") then
        .respond ⟨400, .err "invalid_scope"⟩
      else if client.clientType = .confidential ∧ ¬ truthy data.client_secret then
        .respond ⟨400, .err "invalid_request"⟩
      else if truthy data.client_secret ∧
          ¬ verifyClientSecret hmacHex client.clientId (data.client_secret.getD "") then
        .respond ⟨401, .err "invalid_client"⟩
      else if data.grant_type = some "authorization_code" then
        .dispatch .authorizationCodeGrant client
      else if data.grant_type = some "client_credentials" then
        .dispatch .clientCredentialsGrant client
      else if data.grant_type = some "password" then
        .dispatch .passwordGrant client
      else if data.grant_type = some "refresh_token" then
        .dispatch .refreshTokenGrant client
      else
        .respond ⟨400, .err "unsupported_grant_type"⟩

/-- `OauthController.token`: merge the Basic-header credentials into the
body, then run the preamble and dispatch. -/
def oauthControllerToken (hmacHex : String → String)
    (clients : List OauthClientDoc) (body : ITokenRequest)
    (basic : Option BasicAuthCredentials) : TokenStep :=
  tokenPreamble hmacHex clients (mergeBasic body basic)

/-- Concrete URL validator accepting every string (instance data). -/
def isURLAll : String → Bool := fun _ => true

/-- Concrete stand-in for the HMAC hex derivation (instance data). -/
def hmacHexEx : String → String := fun clientId => "hmac-" ++ clientId

/-- Concrete TTL configuration (instance data). -/
def paramsEx : IOauthDefaults :=
  { accessTokenExpiresIn :=
      { confidential := { internal := 3600, external := 1800 },
        public := { internal := 1200, external := 600 } },
    refreshTokenExpiresIn :=
      { confidential := { internal := 86400, external := 43200 },
        public := { internal := 7200, external := 3600 } },
    tokenType := "Bearer" }

/-- A confidential external web client (instance data). -/
def clientEx : OauthClientDoc :=
  { _id := 1, clientId := "c1", name := "app one", domaine := none,
    secretKey := some "hmac-c1", internal := false,
    grants := [.implicit, .authorization_code],
    redirectURIs := ["https://app/cb"], clientType := .confidential,
    clientProfile := .web, scope := "read write", revokedAt := none }

/-- A public internal native client with the wildcard scope (instance
data). -/
def clientStarEx : OauthClientDoc :=
  { _id := 2, clientId := "c2", name := "app two", domaine := none,
    secretKey := none, internal := true,
    grants := [.implicit, .authorization_code, .password],
    redirectURIs := [], clientType := .public, clientProfile := .native,
    scope := "*", revokedAt := none }

/-- An unredeemed authorization code of `clientEx` without PKCE (instance
data). -/
def authCodeEx : OauthAuthCodeDoc :=
  { _id := 10, authorizationCode := "code1", client := 1, userId := "u1",
    scope := "read", redirectUri := "https://app/cb", codeChallenge := none,
    codeChallengeMethod := none, expiresAt := 1000, revokedAt := none }

/-- An authorization code of `clientEx` carrying the RFC 7636 S256 challenge
(instance data). -/
def authCodePkceEx : OauthAuthCodeDoc :=
  { authCodeEx with
    _id := 11, authorizationCode := "code2",
    codeChallenge := some "E9Melhoa2OwvFrEMTJguCHaoeK1t8URWbuGJSstw-cM",
    codeChallengeMethod := some "S256" }

/-- An authorization code of `clientEx` with a challenge but an absent
challenge method (instance data). -/
def authCodeNoMethodEx : OauthAuthCodeDoc :=
  { authCodeEx with
    _id := 12, authorizationCode := "code3",
    codeChallenge := some "whatever-challenge", codeChallengeMethod := none }

/-- A store holding the three authorization codes (instance data). -/
def storeEx : Store :=
  { authCodes := [authCodeEx, authCodePkceEx, authCodeNoMethodEx],
    accessTokens := [], refreshTokens := [], nextId := 100 }

/-- A token request redeeming `authCodeEx` (instance data). -/
def dataEx : ITokenRequest :=
  { client_id := some "c1", client_secret := some "hmac-c1",
    grant_type := some "authorization_code", scope := none,
    code := some "code1", redirect_uri := some "https://app/cb",
    code_verifier := none }

/-- A token request redeeming `authCodePkceEx` with the RFC 7636 verifier
(instance data). -/
def dataPkceEx : ITokenRequest :=
  { dataEx with
    code := some "code2",
    code_verifier := some "dBjftJeZ4CVP-mB92K27uhbUJU1p1r_wW1gFWFOEjXk" }

/-- A token request redeeming `authCodeNoMethodEx` (instance data). -/
def dataNoMethodEx : ITokenRequest :=
  { dataEx with code := some "code3", code_verifier := some "anything" }

/-- A client draft about to be registered (instance data). -/
def draftEx : OauthClientDoc :=
  { _id := 9, clientId := "c9", name := "app nine", domaine := some "https://nine",
    secretKey := none, internal := false, grants := [],
    redirectURIs := ["https://nine/cb"], clientType := .public,
    clientProfile := .web, scope := "read", revokedAt := none }

/-- The client produced by registering `draftEx` (instance data). -/
def savedClientEx : OauthClientDoc :=
  { draftEx with
    secretKey := some "hmac-c9", clientType := .confidential,
    grants := [.implicit, .authorization_code] }

/-- The token result of redeeming `authCodeEx` over `storeEx` (instance
data). -/
def tokenResEx : OauthTokenType :=
  { token := { client_id := "c1", scope := some "read", azp := "c1",
               aud := "c1", sub := "u1", jti := 100, exp := 2300 },
    accessTokenExpireIn := 1800,
    refreshToken := some { client_id := "c1", scope := none, azp := "c1",
                           aud := "c1", sub := "u1", jti := 101, exp := 43700 } }

/-- The store after redeeming `authCodeEx` over `storeEx` (instance data). -/
def storeAfterEx : Store :=
  { storeEx with
      accessTokens := [{ _id := 100, userId := "u1", client := 1,
                         name := "app one", scope := "read", expiresAt := 2300,
                         userAgent := none }],
      refreshTokens := [{ _id := 101, accessToken := 100, expiresAt := 43700 }],
      nextId := 102 }

/-- The only exception `newAccessToken` throws is the bare grants-check
message. -/
theorem newAccessToken_error_bare (c : OauthClientDoc) (p : IOauthDefaults)
    (now : Nat) (ua : Option String) (g : OauthClientGrantType)
    (scope subj : String) (st : Store) (e : Thrown)
    (h : newAccessToken c p now ua g scope subj st = .error e) :
    e = Thrown.bare "authorization grant type is not allowed for this client." := by
  unfold newAccessToken at h
  split at h
  · split at h <;> simp at h
  · simpa using h.symm

/-- The issuance tail never answers `invalid_grant`: it returns the 200
token response or the catch-translated bare grants failure, a 400
`server_error`. -/
theorem authCodeIssue_ne_invalid_grant (client : OauthClientDoc)
    (oauthParams : IOauthDefaults) (now : Nat) (ua : Option String)
    (oauthCode : OauthAuthCodeDoc) (st : Store) :
    (authCodeIssue client oauthParams now ua oauthCode st).1.body ≠
      TokenBody.err "invalid_grant" := by
  unfold authCodeIssue
  split
  · simp
  · rename_i e heq
    rw [newAccessToken_error_bare _ _ _ _ _ _ _ _ _ heq]
    simp [catchThrown]

/-- C1: the claim states that a successful `authorization_code` token request
marks the stored AuthorizationCode revoked before the token response, so
that a later request presenting the same code finds it revoked and fails
with `invalid_grant`.  The helper never writes `revokedAt`: evaluated at a
concrete request, the first redemption succeeds (status 200), the stored
authorization codes are returned untouched (`revokedAt` still null), and an
identical second request succeeds again with status 200 instead of failing
with `invalid_grant`. -/
theorem authorization_code_never_revoked_on_redemption :
    (authCodeRun dataEx clientEx paramsEx 500 none storeEx).1.status = 200 ∧
    (authCodeRun dataEx clientEx paramsEx 500 none storeEx).2.authCodes =
      storeEx.authCodes ∧
    (authCodeRun dataEx clientEx paramsEx 500 none
        (authCodeRun dataEx clientEx paramsEx 500 none storeEx).2).1.status = 200 ∧
    (authCodeRun dataEx clientEx paramsEx 500 none
        (authCodeRun dataEx clientEx paramsEx 500 none storeEx).2).1.body ≠
      TokenBody.err "invalid_grant" := by
  decide

/-- C2 counterexample: the claim states that a client whose scope is the
wildcard rejects a requested scope equal to the literal wildcard;
`validateScope` of a wildcard-scoped client accepts it. -/
theorem validateScope_wildcard_counterexample :
    clientStarEx.scope = "*" ∧ validateScope clientStarEx "*" = true := by
  decide

/-- C2 amended: `validateScope` accepts a requested scope exactly when the
client's scope is the wildcard (in which case anything is accepted, the
literal wildcard included), or the request is not the wildcard and every
space-separated token of it appears among the client's space-separated
tokens. -/
theorem validateScope_characterization (c : OauthClientDoc) (scope : String) :
    validateScope c scope = true ↔
      (c.scope = "*" ∨
        (scope ≠ "*" ∧ ∀ t ∈ splitScope scope, t ∈ splitScope c.scope)) := by
  unfold validateScope
  by_cases h : c.scope = "*"
  · simp [h]
  · by_cases hs : scope = "*"
    · simp [h, hs]
    · simp [h, hs, List.all_eq_true, List.elem_iff]

/-- C3 counterexample: the claim states that a token-factory call with a
grant outside `client.grants` fails with the OAuth error code
`unauthorized_client`.  At a concrete such call the factory throws a bare
message object carrying no `status` and no OAuth code, and the controller's
`catch` translates exactly that shape to a 400 `server_error` — not
`unauthorized_client`. -/
theorem grant_not_allowed_counterexample :
    clientEx.grants.contains OauthClientGrantType.password = false ∧
    newAccessToken clientEx paramsEx 500 none .password "read" "u1" storeEx =
      .error (.bare "authorization grant type is not allowed for this client.") ∧
    catchThrown
        (.bare "authorization grant type is not allowed for this client.") =
      ⟨400, .err "server_error"⟩ ∧
    TokenBody.err "server_error" ≠ TokenBody.err "unauthorized_client" := by
  refine ⟨by decide, by rfl, by rfl, by decide⟩

/-- C3 amended: a token-factory call with a grant outside `client.grants`
fails before any AccessToken is persisted (the factory resolves to an
exception and returns no store), but the exception is a bare message with no
OAuth error code, which the token endpoint's `catch` translates to a 400
`server_error` rather than `unauthorized_client`. -/
theorem grant_not_allowed_fails_without_status (c : OauthClientDoc)
    (p : IOauthDefaults) (now : Nat) (ua : Option String)
    (g : OauthClientGrantType) (scope subj : String) (st : Store)
    (h : c.grants.contains g = false) :
    newAccessToken c p now ua g scope subj st =
      .error (.bare "authorization grant type is not allowed for this client.") ∧
    catchThrown
        (.bare "authorization grant type is not allowed for this client.") =
      ⟨400, .err "server_error"⟩ := by
  constructor
  · have h2 : g ∉ c.grants := by simpa using h
    unfold newAccessToken
    simp [h2]
  · rfl

/-- C3 amended, witness. -/
theorem grant_not_allowed_fails_without_status_witness :
    clientEx.grants.contains OauthClientGrantType.password = false ∧
    newAccessToken clientEx paramsEx 600 none .password "read" "u2" storeEx =
      .error (.bare "authorization grant type is not allowed for this client.") :=
  ⟨by decide,
    (grant_not_allowed_fails_without_status clientEx paramsEx 600 none .password
      "read" "u2" storeEx (by decide)).1⟩

/-- C4: a client that completes the pre-save hook of the registration path
has `clientType = confidential` exactly when `clientProfile = web`, in which
case the HMAC-derived `secretKey` set at registration survives persistence;
any other profile yields a `public` client with the secret cleared; and the
persisted grants are exactly the table entry for the derived
`(clientType, internal)` pair. -/
theorem client_pre_save_derivation (isURL : String → Bool)
    (hmacHex : String → String) (draft c : OauthClientDoc)
    (h : registerClient isURL hmacHex draft = .ok c) :
    (c.clientType = .confidential ↔ c.clientProfile = .web) ∧
    (c.clientProfile = .web → c.secretKey = some (hmacHex draft.clientId)) ∧
    (c.clientProfile ≠ .web → c.clientType = .public ∧ c.secretKey = none) ∧
    c.grants = (match c.clientType, c.internal with
      | .confidential, true =>
        [.implicit, .authorization_code, .password, .client_credentials]
      | .confidential, false => [.implicit, .authorization_code]
      | .public, true => [.implicit, .authorization_code, .password]
      | .public, false => [.implicit, .authorization_code]) := by
  unfold registerClient preSaveHook at h
  dsimp only at h
  by_cases hweb : draft.clientProfile = OauthClientProfileType.web
  · rw [if_pos hweb] at h
    split at h
    · simp at h
    · split at h <;>
      · injection h with h2
        subst h2
        cases hi : draft.internal <;> simp [hweb, hi, derivedGrants]
  · rw [if_neg hweb] at h
    split at h
    · simp at h
    · split at h <;>
      · injection h with h2
        subst h2
        cases hi : draft.internal <;> simp [hweb, hi, derivedGrants]

/-- C4 witness. -/
theorem client_pre_save_derivation_witness :
    registerClient isURLAll hmacHexEx draftEx = .ok savedClientEx ∧
    (savedClientEx.clientType = .confidential ↔
      savedClientEx.clientProfile = .web) :=
  ⟨by decide,
    (client_pre_save_derivation isURLAll hmacHexEx draftEx savedClientEx
      (by decide)).1⟩

/-- C5: for an authorization-code request whose stored code carries a truthy
challenge and a truthy verifier, past the earlier checks (code found,
unexpired, unrevoked, matching redirect), the request proceeds to token
issuance exactly when S256 verification — `base64url(SHA-256(ASCII(v)))`
with `=` stripped and `+`, `/` mapped to `-`, `_` — matches the stored
challenge (method `S256`), or the verifier equals the challenge
byte-for-byte (method `plain`); any mismatch answers 400 `invalid_grant`.
(The ASCII hypothesis marks the domain on which `punycode.toASCII` is the
identity, as RFC 7636 verifiers are.) -/
theorem pkce_verification (data : ITokenRequest) (client : OauthClientDoc)
    (oauthParams : IOauthDefaults) (now : Nat) (ua : Option String)
    (st : Store) (oc : OauthAuthCodeDoc) (ch v : String)
    (hfind : st.authCodes.find?
      (fun c2 => c2.client == client._id &&
        some c2.authorizationCode == data.code) = some oc)
    (hexp : ¬ oc.expiresAt < now) (hrev : oc.revokedAt = none)
    (hred : data.redirect_uri = some oc.redirectUri)
    (hch : oc.codeChallenge = some ch) (hch0 : ch ≠ "")
    (hv : data.code_verifier = some v) (hv0 : v ≠ "")
    (_hascii : ∀ a ∈ v.toList, a.toNat < 128) :
    (oc.codeChallengeMethod = some "S256" →
      ((authCodeRun data client oauthParams now ua st =
          authCodeIssue client oauthParams now ua oc st ↔
        s256CodeChallenge v = ch) ∧
       (s256CodeChallenge v ≠ ch →
        authCodeRun data client oauthParams now ua st =
          (⟨400, .err "invalid_grant"⟩, st)))) ∧
    (oc.codeChallengeMethod = some "plain" →
      ((authCodeRun data client oauthParams now ua st =
          authCodeIssue client oauthParams now ua oc st ↔ v = ch) ∧
       (v ≠ ch →
        authCodeRun data client oauthParams now ua st =
          (⟨400, .err "invalid_grant"⟩, st)))) := by
  have hrun : authCodeRun data client oauthParams now ua st =
      (match pkceCheck oc data.code_verifier with
       | some e => (catchThrown e, st)
       | none => authCodeIssue client oauthParams now ua oc st) := by
    unfold authCodeRun
    rw [hfind]
    dsimp only
    rw [if_neg hexp, if_neg (by simp [hrev]), if_neg (by simp [hred])]
  constructor
  · intro hm
    have hchk : pkceCheck oc data.code_verifier =
        (if s256CodeChallenge v = ch then none
         else some (.http 400 "invalid_grant")) := by
      unfold pkceCheck
      rw [hch, hv, hm]
      simp [truthy, hch0, hv0]
    by_cases hcmp : s256CodeChallenge v = ch
    · rw [hchk, if_pos hcmp] at hrun
      exact ⟨⟨fun _ => hcmp, fun _ => by rw [hrun]⟩, fun hne => absurd hcmp hne⟩
    · rw [hchk, if_neg hcmp] at hrun
      refine ⟨⟨fun heq => ?_, fun heq => absurd heq hcmp⟩, fun _ => by rw [hrun]; rfl⟩
      exfalso
      refine authCodeIssue_ne_invalid_grant client oauthParams now ua oc st ?_
      rw [← heq, hrun]
      rfl
  · intro hm
    have hchk : pkceCheck oc data.code_verifier =
        (if v = ch then none else some (.http 400 "invalid_grant")) := by
      unfold pkceCheck
      rw [hch, hv, hm]
      simp [truthy, hch0, hv0]
    by_cases hcmp : v = ch
    · rw [hchk, if_pos hcmp] at hrun
      exact ⟨⟨fun _ => hcmp, fun _ => by rw [hrun]⟩, fun hne => absurd hcmp hne⟩
    · rw [hchk, if_neg hcmp] at hrun
      refine ⟨⟨fun heq => ?_, fun heq => absurd heq hcmp⟩, fun _ => by rw [hrun]; rfl⟩
      exfalso
      refine authCodeIssue_ne_invalid_grant client oauthParams now ua oc st ?_
      rw [← heq, hrun]
      rfl

set_option maxRecDepth 10000 in
/-- C5 witness: the RFC 7636 S256 example verifier hashes to its challenge
and the concrete request proceeds to token issuance. -/
theorem pkce_verification_witness :
    s256CodeChallenge "dBjftJeZ4CVP-mB92K27uhbUJU1p1r_wW1gFWFOEjXk" =
      "E9Melhoa2OwvFrEMTJguCHaoeK1t8URWbuGJSstw-cM" ∧
    authCodeRun dataPkceEx clientEx paramsEx 500 none storeEx =
      authCodeIssue clientEx paramsEx 500 none authCodePkceEx storeEx :=
  ⟨by decide,
    ((pkce_verification dataPkceEx clientEx paramsEx 500 none storeEx
        authCodePkceEx "E9Melhoa2OwvFrEMTJguCHaoeK1t8URWbuGJSstw-cM"
        "dBjftJeZ4CVP-mB92K27uhbUJU1p1r_wW1gFWFOEjXk"
        (by decide) (by decide) rfl rfl rfl (by decide) rfl (by decide)
        (by decide)).1 rfl).1.mpr (by decide)⟩

/-- C6: a successful token-factory call returns a refresh token exactly when
the grant is neither `client_credentials` nor `implicit` and the client type
is `confidential`; in exactly that case the store gains one RefreshToken
record whose `accessToken` field is the new AccessToken's identifier and
whose expiry is the refresh TTL; otherwise the refresh-token collection is
untouched. -/
theorem refresh_token_issuance (c : OauthClientDoc) (p : IOauthDefaults)
    (now : Nat) (ua : Option String) (g : OauthClientGrantType)
    (scope subj : String) (st : Store) (r : OauthTokenType) (st2 : Store)
    (h : newAccessToken c p now ua g scope subj st = .ok (r, st2)) :
    (r.refreshToken.isSome = true ↔
      (¬ (g = .client_credentials ∨ g = .implicit) ∧
        c.clientType = .confidential)) ∧
    ((¬ (g = .client_credentials ∨ g = .implicit) ∧
        c.clientType = .confidential) →
      st2.accessTokens = st.accessTokens ++
        [{ _id := st.nextId, userId := subj, client := c._id, name := c.name,
           scope := scope, expiresAt := now + accessTokenExpiresIn c p,
           userAgent := ua }] ∧
      st2.refreshTokens = st.refreshTokens ++
        [{ _id := st.nextId + 1, accessToken := st.nextId,
           expiresAt := now + refreshTokenExpiresIn c p }]) ∧
    (¬ (¬ (g = .client_credentials ∨ g = .implicit) ∧
        c.clientType = .confidential) →
      st2.refreshTokens = st.refreshTokens) := by
  unfold newAccessToken at h
  split at h
  · split at h
    · rename_i hcond
      injection h with h2
      injection h2 with hr hst
      subst hr
      subst hst
      refine ⟨by simpa using hcond, fun _ => ⟨rfl, rfl⟩, fun hn => absurd hcond hn⟩
    · rename_i hcond
      injection h with h2
      injection h2 with hr hst
      subst hr
      subst hst
      exact ⟨by simpa using hcond, fun hc => absurd hc hcond, fun _ => rfl⟩
  · simp at h

/-- C6 witness: redeeming for a confidential client with the
`authorization_code` grant yields a refresh token. -/
theorem refresh_token_issuance_witness :
    newAccessToken clientEx paramsEx 500 none .authorization_code "read" "u1"
      storeEx = .ok (tokenResEx, storeAfterEx) ∧
    tokenResEx.refreshToken.isSome = true :=
  ⟨by decide,
    (refresh_token_issuance clientEx paramsEx 500 none .authorization_code
        "read" "u1" storeEx tokenResEx storeAfterEx (by decide)).1.mpr
      (by decide)⟩

/-- C7 counterexample: the claim states that a supplied and valid
`requestScope` that is not the wildcard, against a non-wildcard subject
scope, yields the token intersection.  An empty request scope is supplied
and valid for a wildcard-scoped client, and the intersection of `read` with
the empty scope is empty — yet `mergedScope` returns the subject scope
untouched, because the JavaScript truthiness guard treats the supplied empty
string as absent. -/
theorem mergedScope_empty_request_counterexample :
    validateScope clientStarEx "" = true ∧
    getMatchedScope "read" "" = "" ∧
    mergedScope clientStarEx "read" (some "") = some "read" := by
  decide

/-- C7 amended: with "supplied" meaning supplied and non-empty (an empty
request scope is treated as absent by the truthiness guard), `mergedScope`
returns: for a supplied valid request scope — the subject scope if the
request is the wildcard, the request scope if the subject scope is the
wildcard, else the token intersection; `none` for a supplied invalid request
scope; and with the request scope absent or empty — the subject scope if the
client scope is the wildcard, the client scope if the subject scope is the
wildcard, else their token intersection. -/
theorem mergedScope_cases (c : OauthClientDoc) (subjectScope : String)
    (requestScope : Option String) :
    (∀ rs, requestScope = some rs → rs ≠ "" →
      ((validateScope c rs = false →
          mergedScope c subjectScope requestScope = none) ∧
       (validateScope c rs = true →
         (rs = "*" →
            mergedScope c subjectScope requestScope = some subjectScope) ∧
         (rs ≠ "*" → subjectScope = "*" →
            mergedScope c subjectScope requestScope = some rs) ∧
         (rs ≠ "*" → subjectScope ≠ "*" →
            mergedScope c subjectScope requestScope =
              some (String.intercalate " " ((splitScope subjectScope).filter
                fun t => (splitScope rs).contains t)))))) ∧
    (truthy requestScope = false →
      ((c.scope = "*" →
          mergedScope c subjectScope requestScope = some subjectScope) ∧
       (c.scope ≠ "*" → subjectScope = "*" →
          mergedScope c subjectScope requestScope = some c.scope) ∧
       (c.scope ≠ "*" → subjectScope ≠ "*" →
          mergedScope c subjectScope requestScope =
            some (String.intercalate " " ((splitScope subjectScope).filter
              fun t => (splitScope c.scope).contains t))))) := by
  constructor
  · rintro rs rfl hrs
    have ht : truthy (some rs) = true := by simp [truthy, hrs]
    constructor
    · intro hval
      simp [mergedScope, ht, hval]
    · intro hval
      refine ⟨fun hstar => ?_, fun hstar hsub => ?_, fun hstar hsub => ?_⟩
      · subst hstar
        simp [mergedScope, ht, hval]
      · subst hsub
        simp [mergedScope, ht, hval, hstar]
      · simp [mergedScope, ht, hval, hstar, hsub, getMatchedScope]
  · intro ht
    refine ⟨fun hstar => ?_, fun hstar hsub => ?_, fun hstar hsub => ?_⟩
    · simp [mergedScope, ht, mergedScopeNoRequest, hstar]
    · subst hsub
      simp [mergedScope, ht, mergedScopeNoRequest, hstar]
    · simp [mergedScope, ht, mergedScopeNoRequest, hstar, hsub, getMatchedScope]

/-- C7 witness: a supplied valid non-wildcard request scope against a
non-wildcard subject scope yields the token intersection. -/
theorem mergedScope_cases_witness :
    mergedScope clientEx "read write" (some "read") = some "read" :=
  ((((mergedScope_cases clientEx "read write" (some "read")).1 "read" rfl
      (by decide)).2 (by decide)).2.2 (by decide) (by decide)).trans (by decide)

/-- C8: the token-endpoint preamble produces, in this order: falsy merged
`client_id` — 400 `invalid_request`; unknown client — 401 `invalid_client`;
revoked client — 401 `invalid_client`; a truthy body scope failing
`validateScope` — 400 `invalid_scope`; a confidential client without a
truthy secret — 400 `invalid_request`; a truthy supplied secret failing the
HMAC check — 401 `invalid_client`; and, with every check passed, a
`grant_type` outside the four supported values — 400
`unsupported_grant_type`. -/
theorem token_endpoint_preamble (hmacHex : String → String)
    (clients : List OauthClientDoc) (body : ITokenRequest)
    (basic : Option BasicAuthCredentials) :
    (truthy (mergeBasic body basic).client_id = false →
      oauthControllerToken hmacHex clients body basic =
        .respond ⟨400, .err "invalid_request"⟩) ∧
    (∀ cid, (mergeBasic body basic).client_id = some cid → cid ≠ "" →
      ((clients.find? fun c => c.clientId == cid) = none →
        oauthControllerToken hmacHex clients body basic =
          .respond ⟨401, .err "invalid_client"⟩) ∧
      (∀ client, (clients.find? fun c => c.clientId == cid) = some client →
        (client.revokedAt.isSome = true →
          oauthControllerToken hmacHex clients body basic =
            .respond ⟨401, .err "invalid_client"⟩) ∧
        (client.revokedAt = none →
          (∀ sc, (mergeBasic body basic).scope = some sc → sc ≠ "" →
            validateScope client sc = false →
            oauthControllerToken hmacHex clients body basic =
              .respond ⟨400, .err "invalid_scope"⟩) ∧
          ((truthy (mergeBasic body basic).scope = false ∨
              validateScope client
                ((mergeBasic body basic).scope.getD "") = true) →
            (client.clientType = .confidential →
              truthy (mergeBasic body basic).client_secret = false →
              oauthControllerToken hmacHex clients body basic =
                .respond ⟨400, .err "invalid_request"⟩) ∧
            (∀ sec, (mergeBasic body basic).client_secret = some sec →
              sec ≠ "" →
              verifyClientSecret hmacHex client.clientId sec = false →
              oauthControllerToken hmacHex clients body basic =
                .respond ⟨401, .err "invalid_client"⟩) ∧
            ((client.clientType = .confidential →
                truthy (mergeBasic body basic).client_secret = true) →
              (truthy (mergeBasic body basic).client_secret = false ∨
                verifyClientSecret hmacHex client.clientId
                  ((mergeBasic body basic).client_secret.getD "") = true) →
              (mergeBasic body basic).grant_type ≠ some "authorization_code" →
              (mergeBasic body basic).grant_type ≠ some "client_credentials" →
              (mergeBasic body basic).grant_type ≠ some "password" →
              (mergeBasic body basic).grant_type ≠ some "refresh_token" →
              oauthControllerToken hmacHex clients body basic =
                .respond ⟨400, .err "unsupported_grant_type"⟩))))) := by
  refine ⟨fun h1 => ?_, fun cid hcid hcid0 => ⟨fun hfind => ?_,
    fun client hfind => ⟨fun hrev => ?_, fun hrev => ⟨fun sc hsc hsc0 hval => ?_,
    fun hscope => ⟨fun hconf hsec => ?_, fun sec hsec hsec0 hver => ?_,
    fun hconfsec hsecok hg1 hg2 hg3 hg4 => ?_⟩⟩⟩⟩⟩
  · simp [oauthControllerToken, tokenPreamble, h1]
  · have ht2 : truthy (some cid) = true := by simp [truthy, hcid0]
    simp [oauthControllerToken, tokenPreamble, hcid, ht2, hfind]
  · have ht2 : truthy (some cid) = true := by simp [truthy, hcid0]
    simp [oauthControllerToken, tokenPreamble, hcid, ht2, hfind, hrev]
  · have ht2 : truthy (some cid) = true := by simp [truthy, hcid0]
    have hts : truthy (some sc) = true := by simp [truthy, hsc0]
    simp [oauthControllerToken, tokenPreamble, hcid, ht2, hfind, hrev, hsc,
      hts, hval]
  · have ht2 : truthy (some cid) = true := by simp [truthy, hcid0]
    have hscF : ¬ (truthy (mergeBasic body basic).scope = true ∧
        validateScope client ((mergeBasic body basic).scope.getD "") = false) := by
      rcases hscope with h | h <;> simp [h]
    simp [oauthControllerToken, tokenPreamble, hcid, ht2, hfind, hrev, hscF,
      hconf, hsec]
  · have ht2 : truthy (some cid) = true := by simp [truthy, hcid0]
    have hts : truthy (some sec) = true := by simp [truthy, hsec0]
    have hscF : ¬ (truthy (mergeBasic body basic).scope = true ∧
        validateScope client ((mergeBasic body basic).scope.getD "") = false) := by
      rcases hscope with h | h <;> simp [h]
    simp [oauthControllerToken, tokenPreamble, hcid, ht2, hfind, hrev, hscF,
      hsec, hts, hver]
  · have ht2 : truthy (some cid) = true := by simp [truthy, hcid0]
    have hscF : ¬ (truthy (mergeBasic body basic).scope = true ∧
        validateScope client ((mergeBasic body basic).scope.getD "") = false) := by
      rcases hscope with h | h <;> simp [h]
    have hconfF : ¬ (client.clientType = OauthClientType.confidential ∧
        truthy (mergeBasic body basic).client_secret = false) := by
      rintro ⟨hx1, hx2⟩
      simp [hconfsec hx1] at hx2
    have hverF : ¬ (truthy (mergeBasic body basic).client_secret = true ∧
        verifyClientSecret hmacHex client.clientId
          ((mergeBasic body basic).client_secret.getD "") = false) := by
      rcases hsecok with h | h <;> simp [h]
    simp [oauthControllerToken, tokenPreamble, hcid, ht2, hfind, hrev, hscF,
      hconfF, hverF, hg1, hg2, hg3, hg4]

/-- C8 witness: a request with no client id in body or Basic header answers
400 `invalid_request`. -/
theorem token_endpoint_preamble_witness :
    oauthControllerToken hmacHexEx []
      ⟨none, none, none, none, none, none, none⟩ none =
      .respond ⟨400, .err "invalid_request"⟩ :=
  (token_endpoint_preamble hmacHexEx []
    ⟨none, none, none, none, none, none, none⟩ none).1 (by decide)

/-- C9: for a stored code carrying a truthy challenge but a challenge method
that is neither `plain` nor `S256` (e.g. null), past the earlier checks a
truthy `code_verifier` is still required — a falsy one answers 400
`invalid_request` — but its value is never compared to the challenge: for
every non-empty verifier the run proceeds straight to token issuance. -/
theorem pkce_unknown_method_skips_verification (data : ITokenRequest)
    (client : OauthClientDoc) (oauthParams : IOauthDefaults) (now : Nat)
    (ua : Option String) (st : Store) (oc : OauthAuthCodeDoc) (ch : String)
    (hfind : st.authCodes.find?
      (fun c2 => c2.client == client._id &&
        some c2.authorizationCode == data.code) = some oc)
    (hexp : ¬ oc.expiresAt < now) (hrev : oc.revokedAt = none)
    (hred : data.redirect_uri = some oc.redirectUri)
    (hch : oc.codeChallenge = some ch) (hch0 : ch ≠ "")
    (hm1 : oc.codeChallengeMethod ≠ some "plain")
    (hm2 : oc.codeChallengeMethod ≠ some "S256") :
    (truthy data.code_verifier = false →
      authCodeRun data client oauthParams now ua st =
        (⟨400, .err "invalid_request"⟩, st)) ∧
    (∀ v, v ≠ "" →
      authCodeRun { data with code_verifier := some v } client oauthParams
        now ua st = authCodeIssue client oauthParams now ua oc st) := by
  have htc : truthy (some ch) = true := by simp [truthy, hch0]
  constructor
  · intro hvf
    unfold authCodeRun
    rw [hfind]
    dsimp only
    rw [if_neg hexp, if_neg (by simp [hrev]), if_neg (by simp [hred])]
    have hpk : pkceCheck oc data.code_verifier =
        some (.http 400 "invalid_request") := by
      unfold pkceCheck
      rw [hch]
      rw [if_pos (by simp [htc]), if_pos (by simp [hvf])]
    rw [hpk]
    rfl
  · intro v hv
    unfold authCodeRun
    dsimp only
    rw [hfind]
    dsimp only
    rw [if_neg hexp, if_neg (by simp [hrev]), if_neg (by simp [hred])]
    have hpk : pkceCheck oc (some v) = none := by
      unfold pkceCheck
      rw [hch]
      have htv : truthy (some v) = true := by simp [truthy, hv]
      rw [if_pos (by simp [htc]), if_neg (by simp [htv]), if_neg hm1,
        if_neg hm2]
    rw [hpk]

/-- C9 witness: a stored code with a challenge but a null method lets any
non-empty verifier through to issuance. -/
theorem pkce_unknown_method_witness :
    authCodeRun dataNoMethodEx clientEx paramsEx 500 none storeEx =
      authCodeIssue clientEx paramsEx 500 none authCodeNoMethodEx storeEx :=
  (pkce_unknown_method_skips_verification
    { dataNoMethodEx with code_verifier := none } clientEx paramsEx 500 none
    storeEx authCodeNoMethodEx "whatever-challenge"
    (by decide) (by decide) rfl rfl rfl (by decide) (by decide) (by decide)).2
    "anything" (by decide)

/-- C10: a public client never needs a secret, but a non-empty supplied
`client_secret` is still HMAC-verified, and a failing verification ends the
request with 401 `invalid_client` before any grant dispatch. -/
theorem public_client_secret_still_verified (hmacHex : String → String)
    (clients : List OauthClientDoc) (body : ITokenRequest)
    (basic : Option BasicAuthCredentials) (cid : String)
    (client : OauthClientDoc) (sec : String)
    (hcid : (mergeBasic body basic).client_id = some cid) (hcid0 : cid ≠ "")
    (hfind : (clients.find? fun c => c.clientId == cid) = some client)
    (hrev : client.revokedAt = none)
    (hpub : client.clientType = .public)
    (hscope : truthy (mergeBasic body basic).scope = false ∨
      validateScope client ((mergeBasic body basic).scope.getD "") = true)
    (hsec : (mergeBasic body basic).client_secret = some sec)
    (hsec0 : sec ≠ "")
    (hver : verifyClientSecret hmacHex client.clientId sec = false) :
    oauthControllerToken hmacHex clients body basic =
      .respond ⟨401, .err "invalid_client"⟩ := by
  have ht2 : truthy (some cid) = true := by simp [truthy, hcid0]
  have hts : truthy (some sec) = true := by simp [truthy, hsec0]
  have hscF : ¬ (truthy (mergeBasic body basic).scope = true ∧
      validateScope client ((mergeBasic body basic).scope.getD "") = false) := by
    rcases hscope with h | h <;> simp [h]
  simp [oauthControllerToken, tokenPreamble, hcid, ht2, hfind, hrev, hscF,
    hpub, hsec, hts, hver]

/-- C10 witness: a public internal client presenting a wrong secret is
refused with 401 `invalid_client`. -/
theorem public_client_secret_still_verified_witness :
    oauthControllerToken hmacHexEx [clientStarEx]
      ⟨some "c2", some "bad-secret", some "password", none, none, none, none⟩
      none = .respond ⟨401, .err "invalid_client"⟩ :=
  public_client_secret_still_verified hmacHexEx [clientStarEx]
    ⟨some "c2", some "bad-secret", some "password", none, none, none, none⟩
    none "c2" clientStarEx "bad-secret" rfl (by decide) (by decide) rfl
    (by decide) (Or.inl (by decide)) rfl (by decide) (by decide)
